import Mathlib

/-!
Verification development for the Innovate-X event-registration service.

The definitions below are a shallow embedding of the team-verification
workflow: the Drizzle schema (shared/schema.ts), the storage layer
(server/storage.ts, class DatabaseStorage), the PATCH
/api/admin/teams/:id/status route handler together with its helpers
generateICS, sendEmail and the QR payload construction (server/routes.ts),
and the client HTTP wrapper apiRequest (client/src/lib/queryClient.ts).

Modelling conventions:
  - timestamps (new Date()) are a Nat clock value passed in as `now`;
  - database-generated uuid ids are omitted from rows where no code reads
    them back;
  - network effects are explicit: the Cloudinary upload result is the
    `qrUrl` argument, email success is the `emailOk` argument, and the
    outcome records every sendEmail and QRCode.toDataURL call made;
  - drizzle-orm .set ignores object keys whose value is undefined, so an
    absent note leaves verificationNote unchanged;
  - the ics library output is modelled as the structured argument record
    handed to createEvent (serialisation and base64 are injective external
    encodings applied afterwards);
  - template-literal HTML keeps the source text with indentation
    normalised to single newlines.
-/

namespace InnovateX

/-- category pgEnum from shared/schema.ts. -/
inductive Category
  | SOFTWARE
  | HARDWARE
deriving DecidableEq, Repr

/-- status pgEnum from shared/schema.ts. -/
inductive Status
  | PENDING
  | VERIFIED
  | REJECTED
deriving DecidableEq, Repr

/-- updateTeamStatusSchema restricts the requested status to VERIFIED or REJECTED. -/
inductive Decision
  | VERIFIED
  | REJECTED
deriving DecidableEq, Repr

/-- The Status value a Decision writes. -/
def Decision.toStatus : Decision → Status
  | .VERIFIED => .VERIFIED
  | .REJECTED => .REJECTED

/-- teams table row from shared/schema.ts. -/
structure Team where
  id : String
  teamName : String
  category : Category
  projectTitle : String
  projectSummary : String
  collegeName : String
  mentorName : Option String
  mentorEmail : Option String
  contactPhone : String
  contactEmail : String
  memberCount : Nat
  paymentProofUrl : String
  extraDocUrl : Option String
  status : Status
  verificationNote : Option String
  qrCodeUrl : Option String
  verifiedAt : Option Nat
  verifiedBy : Option String
  createdAt : Nat
  updatedAt : Nat
deriving DecidableEq, Repr

/-- members table row from shared/schema.ts. -/
structure Member where
  teamId : String
  fullName : String
  email : String
  year : String
  department : String
  createdAt : Nat
deriving DecidableEq, Repr

/-- audit_logs table row from shared/schema.ts. -/
structure AuditLog where
  teamId : String
  action : String
  performedBy : String
  details : Option String
  createdAt : Nat
deriving DecidableEq, Repr

/-- The database state the workflow touches: teams, members, audit_logs and
the event_settings key-value rows. -/
structure Store where
  teams : List Team
  members : List Member
  auditLogs : List AuditLog
  settings : List (String × String)
deriving DecidableEq, Repr

/-- DatabaseStorage.getTeamById: select from teams where id matches. -/
def getTeamById (st : Store) (id : String) : Option Team :=
  st.teams.find? (fun t => t.id == id)

/-- The update object DatabaseStorage.updateTeamStatus builds and passes to
drizzle .set: status, verificationNote and updatedAt always, plus verifiedAt
and verifiedBy when the new status is VERIFIED; verifiedBy falls back to
"admin" when the argument is absent or empty. An absent note leaves
verificationNote unchanged because .set skips undefined values. -/
def applyStatusUpdate (status : Decision) (note : Option String)
    (verifiedBy : Option String) (now : Nat) (t : Team) : Team :=
  let t1 : Team :=
    { t with
      status := status.toStatus
      verificationNote := match note with
        | some n => some n
        | none => t.verificationNote
      updatedAt := now }
  match status with
  | .VERIFIED =>
      { t1 with
        verifiedAt := some now
        verifiedBy := some (match verifiedBy with
          | some s => if s = "" then "admin" else s
          | none => "admin") }
  | .REJECTED => t1

/-- DatabaseStorage.updateTeamStatus: update teams set ... where id matches. -/
def updateTeamStatus (st : Store) (id : String) (status : Decision)
    (note : Option String) (verifiedBy : Option String) (now : Nat) : Store :=
  { st with
    teams := st.teams.map
      (fun t => if t.id == id then applyStatusUpdate status note verifiedBy now t else t) }

/-- DatabaseStorage.updateTeamQrCode: update teams set qr_code_url where id matches. -/
def updateTeamQrCode (st : Store) (id : String) (qrCodeUrl : String) : Store :=
  { st with
    teams := st.teams.map
      (fun t => if t.id == id then { t with qrCodeUrl := some qrCodeUrl } else t) }

/-- DatabaseStorage.getMembersByTeamId: select from members where teamId matches. -/
def getMembersByTeamId (st : Store) (teamId : String) : List Member :=
  st.members.filter (fun m => m.teamId == teamId)

/-- DatabaseStorage.createAuditLog: insert into audit_logs. -/
def createAuditLog (st : Store) (teamId action performedBy : String)
    (details : Option String) (now : Nat) : Store :=
  { st with auditLogs := st.auditLogs ++ [⟨teamId, action, performedBy, details, now⟩] }

/-- DatabaseStorage.getSetting: select from event_settings where key matches. -/
def getSetting (st : Store) (key : String) : Option String :=
  (st.settings.find? (fun kv => kv.1 == key)).map (·.2)

/-- Lowercase hexadecimal digit, as produced by JSON.stringify control escapes. -/
def hexDigit (n : Nat) : Char :=
  if n < 10 then Char.ofNat (48 + n) else Char.ofNat (87 + n)

/-- Four lowercase hexadecimal digits. -/
def hex4 (n : Nat) : String :=
  String.mk [hexDigit (n / 4096 % 16), hexDigit (n / 256 % 16),
             hexDigit (n / 16 % 16), hexDigit (n % 16)]

/-- Character escaping of JSON.stringify for string values: quote, backslash,
the named control escapes, and \u00xx for the remaining control characters. -/
def jsonEscapeChar (c : Char) : String :=
  if c = '"' then "\\\""
  else if c = '\\' then "\\\\"
  else if c = Char.ofNat 8 then "\\b"
  else if c = Char.ofNat 9 then "\\t"
  else if c = Char.ofNat 10 then "\\n"
  else if c = Char.ofNat 12 then "\\f"
  else if c = Char.ofNat 13 then "\\r"
  else if c.toNat < 32 then "\\u" ++ hex4 c.toNat
  else String.singleton c

/-- JSON.stringify escaping applied to a whole string. -/
def jsonEscape (s : String) : String :=
  String.join (s.data.map jsonEscapeChar)

/-- A JSON string literal: quoted, escaped. -/
def jsonStr (s : String) : String :=
  "\"" ++ jsonEscape s ++ "\""

/-- The database text of a category enum value. -/
def Category.text : Category → String
  | .SOFTWARE => "SOFTWARE"
  | .HARDWARE => "HARDWARE"

/-- The qrData payload the VERIFIED branch of the status route builds:
JSON.stringify of the object literal with keys teamId, teamName, category,
verified (in insertion order), the last bound to true. -/
def makeCheckInToken (teamId teamName : String) (category : Category) : String :=
  "\x7b\"teamId\":" ++ jsonStr teamId ++
    ",\"teamName\":" ++ jsonStr teamName ++
    ",\"category\":" ++ jsonStr category.text ++
    ",\"verified\":true\x7d"

/-- The argument record generateICS hands to createEvent from the ics
library. start and end come from the literal arrays [2025, 11, 25, 9, 0]
and [2025, 11, 25, 17, 0]. -/
structure IcsEvent where
  startYear : Nat
  startMonth : Nat
  startDay : Nat
  startHour : Nat
  startMinute : Nat
  endYear : Nat
  endMonth : Nat
  endDay : Nat
  endHour : Nat
  endMinute : Nat
  title : String
  description : String
  location : String
  status : String
  busyStatus : String
  organizerName : String
  organizerEmail : String
deriving DecidableEq, Repr

/-- generateICS from server/routes.ts: a single event with hard-coded date,
time, title, location and organizer, and a description interpolating the
team name and project title. -/
def generateICS (teamName : String) (projectTitle : String) : IcsEvent :=
  { startYear := 2025, startMonth := 11, startDay := 25, startHour := 9, startMinute := 0
    endYear := 2025, endMonth := 11, endDay := 25, endHour := 17, endMinute := 0
    title := "Innovate-X 2025 - Project Expo"
    description := "Team: " ++ teamName ++ "\nProject: " ++ projectTitle ++
      "\n\nPlease arrive 30 minutes early for check-in and setup."
    location := "Main Auditorium, Your College"
    status := "CONFIRMED"
    busyStatus := "BUSY"
    organizerName := "Innovate-X Team"
    organizerEmail := "organizer@innovatex.com" }

/-- An email attachment as passed to sendEmail: the Brevo attachment object
with a file name and, in place of the base64 text, the structured calendar
event it encodes. -/
structure Attachment where
  name : String
  event : IcsEvent
deriving DecidableEq, Repr

/-- One call to sendEmail: recipient list, subject, HTML body, attachments.
The recipient field is named to in the source; to is a Lean keyword. -/
structure EmailMsg where
  toAddrs : List String
  subject : String
  htmlContent : String
  attachments : List Attachment
deriving DecidableEq, Repr

/-- The img tag of the acceptance email that inlines the uploaded QR image. -/
def qrImgTag (qrCodeUrl : String) : String :=
  "<img src=\"" ++ qrCodeUrl ++
    "\" alt=\"Team QR Code\" style=\"width: 250px; height: 250px; border: 2px solid #00FF85; border-radius: 8px;\"/>"

/-- The conditional note block of the acceptance email; an absent or empty
note (falsy in the template conditional) contributes nothing. -/
def noteBlockAccept (note : Option String) : String :=
  match note with
  | some n => if n = "" then "" else "<p><strong>Note from organizers:</strong> " ++ n ++ "</p>"
  | none => ""

/-- The acceptance email text above the inlined QR image. -/
def acceptanceHtmlPre (teamName : String) : String :=
  "<h2>Congratulations! Your Team Has Been Verified 🎉</h2>\n" ++
  "<p>Dear Team " ++ teamName ++ ",</p>\n" ++
  "<p>We're excited to inform you that your registration for Innovate-X 2025 has been verified!</p>\n" ++
  "<h3>Event Details:</h3>\n" ++
  "<p><strong>Date:</strong> November 25, 2025</p>\n" ++
  "<p><strong>Time:</strong> 9:00 AM - 5:00 PM</p>\n" ++
  "<p><strong>Venue:</strong> Main Auditorium, Your College</p>\n" ++
  "<h3>Your Team QR Code:</h3>\n" ++
  "<p>Please bring this QR code on the event day for check-in:</p>\n"

/-- The acceptance email text below the inlined QR image. -/
def acceptanceHtmlPost (note : Option String) : String :=
  "\n<h3>What to Bring:</h3>\n" ++
  "<ul>\n<li>Your project and required equipment</li>\n<li>Team ID proof</li>\n<li>This confirmation email and QR code</li>\n</ul>\n" ++
  noteBlockAccept note ++ "\n" ++
  "<p>We've also attached a calendar invite (.ics file) - add it to your calendar so you don't miss the event!</p>\n" ++
  "<p>See you at Innovate-X 2025!</p>\n" ++
  "<p>Best regards,<br/>Innovate-X Team</p>"

/-- The acceptance email body built in the VERIFIED branch, text as in the
source template with indentation normalised. -/
def acceptanceHtml (teamName : String) (qrCodeUrl : String) (note : Option String) : String :=
  acceptanceHtmlPre teamName ++ (qrImgTag qrCodeUrl ++ acceptanceHtmlPost note)

/-- The conditional reason block of the rejection email. -/
def noteBlockReject (note : Option String) : String :=
  match note with
  | some n => if n = "" then "" else "<p><strong>Reason:</strong> " ++ n ++ "</p>"
  | none => ""

/-- The rejection email text above the reason block. -/
def rejectionHtmlPre (teamName : String) : String :=
  "<h2>Innovate-X 2025 Registration Update</h2>\n" ++
  "<p>Dear Team " ++ teamName ++ ",</p>\n" ++
  "<p>Thank you for your interest in Innovate-X 2025. Unfortunately, we are unable to accept your registration at this time.</p>\n"

/-- The rejection email text below the reason block. -/
def rejectionHtmlPost : String :=
  "\n<p>If you believe this is an error or have questions, please contact us at organizer@innovatex.edu</p>\n" ++
  "<p>We appreciate your participation and hope to see you in future events.</p>\n" ++
  "<p>Best regards,<br/>Innovate-X Team</p>"

/-- The rejection email body built in the else branch, text as in the source
template with indentation normalised. -/
def rejectionHtml (teamName : String) (note : Option String) : String :=
  rejectionHtmlPre teamName ++ (noteBlockReject note ++ rejectionHtmlPost)

/-- HTTP outcome of the PATCH /api/admin/teams/:id/status handler. -/
inductive DecideResult
  | ok
  | notFound
  | serverError
deriving DecidableEq, Repr

/-- Observable outcome of one handler run: the resulting database state, the
sendEmail calls attempted in order, and the data strings passed to
QRCode.toDataURL. -/
structure DecideOutcome where
  store : Store
  emails : List EmailMsg
  qrCalls : List String
  result : DecideResult
deriving DecidableEq, Repr

/-- The PATCH /api/admin/teams/:id/status handler from server/routes.ts.
Arguments beyond the request: adminEmail is the session admin identity, now
the clock, qrUrl the Cloudinary URL returned for the uploaded QR image, and
emailOk whether the Brevo call succeeds (a failed sendEmail throws, which
the catch block turns into a 500 after all writes already happened). -/
def decideTeamStatus (st : Store) (id : String) (status : Decision)
    (note : Option String) (adminEmail : String) (now : Nat)
    (qrUrl : String) (emailOk : Bool) : DecideOutcome :=
  match getTeamById st id with
  | none => ⟨st, [], [], .notFound⟩
  | some team =>
    let st1 := updateTeamStatus st id status note (some adminEmail) now
    let st2 := createAuditLog st1 id
      (match status with | .VERIFIED => "TEAM_VERIFIED" | .REJECTED => "TEAM_REJECTED")
      adminEmail note now
    let mems := getMembersByTeamId st2 id
    match status with
    | .VERIFIED =>
        let qrData := makeCheckInToken id team.teamName team.category
        let st3 := updateTeamQrCode st2 id qrUrl
        let icsEvent := generateICS team.teamName team.projectTitle
        let msg : EmailMsg :=
          { toAddrs := mems.map (·.email)
            subject := "✅ Team Verified - Innovate-X 2025"
            htmlContent := acceptanceHtml team.teamName qrUrl note
            attachments := [⟨"innovate-x-2025.ics", icsEvent⟩] }
        ⟨st3, [msg], [qrData], if emailOk then .ok else .serverError⟩
    | .REJECTED =>
        let msg : EmailMsg :=
          { toAddrs := [team.contactEmail]
            subject := "Innovate-X 2025 Registration Update"
            htmlContent := rejectionHtml team.teamName note
            attachments := [] }
        ⟨st2, [msg], [], if emailOk then .ok else .serverError⟩

/-- Result of a client apiRequest call: the status of the response finally
returned (or thrown), how many times the original request was sent, and the
module-level csrfToken after the call. -/
structure NetResult where
  finalStatus : Nat
  attempts : Nat
  token : Option String
deriving DecidableEq, Repr

/-- apiRequest from client/src/lib/queryClient.ts. respond maps the attempt
index and the token carried in the request headers to the HTTP status;
csrfRefresh is the token body of GET /api/auth/csrf when that fetch is ok,
none when it fails. The recursion carries the retryOn403 flag, the current
module-level token, and the attempt index; the only recursive call passes
retryOn403 = false. -/
def apiRequestRun (respond : Nat → Option String → Nat) (csrfRefresh : Option String)
    (isGet : Bool) (retryOn403 : Bool) (token : Option String) (k : Nat) : NetResult :=
  let st := respond k token
  if st = 403 ∧ retryOn403 = true ∧ ¬isGet = true then
    match csrfRefresh with
    | some newToken => apiRequestRun respond csrfRefresh isGet false (some newToken) (k + 1)
    | none => { finalStatus := st, attempts := k + 1, token := token }
  else { finalStatus := st, attempts := k + 1, token := token }
termination_by retryOn403.toNat
decreasing_by simp_all

/-- apiRequest entry point: retryOn403 defaults to true, attempt index 0. -/
def apiRequest (respond : Nat → Option String → Nat) (csrfRefresh : Option String)
    (isGet : Bool) (token : Option String) : NetResult :=
  apiRequestRun respond csrfRefresh isGet true token 0

/-- Claim-side calendar venue following the words of the spec: the venue of
the rendered event is taken from the EVENT_VENUE setting, falling back to
the fixed default when the setting is missing. Used only to compare the
spec sentence against what generateICS actually produces. -/
def specCalendarVenue (settings : List (String × String)) : String :=
  ((settings.find? (fun kv => kv.1 == "EVENT_VENUE")).map (·.2)).getD
    "Main Auditorium, Your College"

/-! Concrete fixtures used by witnesses and counterexamples. -/

/-- A registered team in its initial PENDING state. -/
def sampleTeam : Team :=
  { id := "t1", teamName := "Alpha", category := .SOFTWARE
    projectTitle := "Smart Grid Monitor"
    projectSummary := "A monitoring project.", collegeName := "Sample College"
    mentorName := none, mentorEmail := none
    contactPhone := "9999999999", contactEmail := "lead@example.com"
    memberCount := 2, paymentProofUrl := "http://blob/pay1", extraDocUrl := none
    status := .PENDING, verificationNote := none, qrCodeUrl := none
    verifiedAt := none, verifiedBy := none, createdAt := 0, updatedAt := 0 }

/-- First member of the sample team. -/
def sampleMember1 : Member :=
  ⟨"t1", "Asha Rao", "asha@example.com", "3", "CSE", 0⟩

/-- Second member of the sample team. -/
def sampleMember2 : Member :=
  ⟨"t1", "Vik Shah", "vik@example.com", "3", "ECE", 0⟩

/-- A store holding the sample team with its two members. -/
def sampleStore : Store :=
  ⟨[sampleTeam], [sampleMember1, sampleMember2], [], []⟩

/-! Helper lemmas about the keyed list updates the storage layer performs. -/

/-- Updating the rows whose id matches and then looking the id up returns
the updated row, provided the update preserves the id column. -/
theorem find_update_keyed (l : List Team) (id : String) (f : Team → Team)
    (hf : ∀ t, (f t).id = t.id) :
    (l.map fun t => if t.id == id then f t else t).find? (fun t => t.id == id)
      = (l.find? fun t => t.id == id).map f := by
  induction l with
  | nil => rfl
  | cons a l ih =>
    by_cases h : a.id = id
    · have hb : (a.id == id) = true := beq_iff_eq.mpr h
      simp only [List.map_cons, hb, if_true]
      rw [@List.find?_cons_of_pos Team (fun t => t.id == id) (f a) _
          (by show ((f a).id == id) = true; rw [hf]; exact hb),
        @List.find?_cons_of_pos Team (fun t => t.id == id) a l hb]
      rfl
    · have hb : ¬((a.id == id) = true) := by simpa [beq_iff_eq] using h
      simp only [List.map_cons, if_neg hb]
      rw [@List.find?_cons_of_neg Team (fun t => t.id == id) a _ hb,
        @List.find?_cons_of_neg Team (fun t => t.id == id) a l hb]
      exact ih

/-- applyStatusUpdate never changes the id column. -/
theorem applyStatusUpdate_id (d : Decision) (note vb : Option String) (now : Nat)
    (t : Team) : (applyStatusUpdate d note vb now t).id = t.id := by
  cases d <;> rfl

/-- Reading a team back after updateTeamStatus returns the updated row. -/
theorem getTeamById_updateTeamStatus (st : Store) (id : String) (d : Decision)
    (note vb : Option String) (now : Nat) :
    getTeamById (updateTeamStatus st id d note vb now) id
      = (getTeamById st id).map (applyStatusUpdate d note vb now) :=
  find_update_keyed _ _ _ (applyStatusUpdate_id d note vb now)

/-- Reading a team back after updateTeamQrCode returns the updated row. -/
theorem getTeamById_updateTeamQrCode (st : Store) (id : String) (url : String) :
    getTeamById (updateTeamQrCode st id url) id
      = (getTeamById st id).map (fun t => { t with qrCodeUrl := some url }) :=
  find_update_keyed _ _ _ (fun _ => rfl)

/-- C3: when the teamId does not resolve to a team, the status handler
returns NotFound with no side effects: the store is unchanged and no email
dispatch or QR encoding call happens. -/
theorem decide_missing_team_no_effects (st : Store) (id : String) (d : Decision)
    (note : Option String) (adminEmail : String) (now : Nat) (qrUrl : String)
    (emailOk : Bool) (h : getTeamById st id = none) :
    decideTeamStatus st id d note adminEmail now qrUrl emailOk
      = ⟨st, [], [], .notFound⟩ := by
  unfold decideTeamStatus
  rw [h]

/-- Witness for decide_missing_team_no_effects: deciding a missing id on the
empty store. -/
theorem decide_missing_team_no_effects_witness :
    getTeamById ⟨[], [], [], []⟩ "missing-id" = none
      ∧ decideTeamStatus ⟨[], [], [], []⟩ "missing-id" .VERIFIED none "admin@x" 0 "u" true
          = ⟨⟨[], [], [], []⟩, [], [], .notFound⟩ :=
  ⟨rfl, decide_missing_team_no_effects _ _ _ _ _ _ _ _ rfl⟩

/-- C10: the row update of updateTeamStatus writes only status,
verificationNote, updatedAt and, on VERIFIED, verifiedAt and verifiedBy;
every other column keeps its value, and a REJECTED decision additionally
leaves verifiedAt and verifiedBy untouched. -/
theorem updateTeamStatus_frame (t : Team) (d : Decision) (note vb : Option String)
    (now : Nat) :
    ((applyStatusUpdate d note vb now t).id = t.id
      ∧ (applyStatusUpdate d note vb now t).teamName = t.teamName
      ∧ (applyStatusUpdate d note vb now t).category = t.category
      ∧ (applyStatusUpdate d note vb now t).projectTitle = t.projectTitle
      ∧ (applyStatusUpdate d note vb now t).projectSummary = t.projectSummary
      ∧ (applyStatusUpdate d note vb now t).collegeName = t.collegeName
      ∧ (applyStatusUpdate d note vb now t).mentorName = t.mentorName
      ∧ (applyStatusUpdate d note vb now t).mentorEmail = t.mentorEmail
      ∧ (applyStatusUpdate d note vb now t).contactPhone = t.contactPhone
      ∧ (applyStatusUpdate d note vb now t).contactEmail = t.contactEmail
      ∧ (applyStatusUpdate d note vb now t).memberCount = t.memberCount
      ∧ (applyStatusUpdate d note vb now t).paymentProofUrl = t.paymentProofUrl
      ∧ (applyStatusUpdate d note vb now t).extraDocUrl = t.extraDocUrl
      ∧ (applyStatusUpdate d note vb now t).qrCodeUrl = t.qrCodeUrl
      ∧ (applyStatusUpdate d note vb now t).createdAt = t.createdAt)
    ∧ ((applyStatusUpdate .REJECTED note vb now t).verifiedAt = t.verifiedAt
      ∧ (applyStatusUpdate .REJECTED note vb now t).verifiedBy = t.verifiedBy) := by
  cases d <;>
    exact ⟨⟨rfl, rfl, rfl, rfl, rfl, rfl, rfl, rfl, rfl, rfl, rfl, rfl, rfl, rfl, rfl⟩,
      rfl, rfl⟩

/-- C4: the check-in token the VERIFIED branch hands to the QR encoder is
the JSON encoding of exactly teamId, teamName, category and verified:true;
it is a pure function of the team snapshot, independent of the note, the
acting admin, the clock, the upload result and the email outcome. -/
theorem check_in_token_pure (st : Store) (id : String) (team : Team)
    (note note2 : Option String) (adminEmail adminEmail2 : String) (now now2 : Nat)
    (qrUrl qrUrl2 : String) (emailOk emailOk2 : Bool)
    (hfind : getTeamById st id = some team) :
    (decideTeamStatus st id .VERIFIED note adminEmail now qrUrl emailOk).qrCalls
        = [makeCheckInToken id team.teamName team.category]
      ∧ (decideTeamStatus st id .VERIFIED note adminEmail now qrUrl emailOk).qrCalls
          = (decideTeamStatus st id .VERIFIED note2 adminEmail2 now2 qrUrl2 emailOk2).qrCalls
      ∧ makeCheckInToken id team.teamName team.category
          = "\x7b\"teamId\":" ++ (jsonStr id ++ (",\"teamName\":" ++ (jsonStr team.teamName
              ++ (",\"category\":" ++ (jsonStr team.category.text ++ ",\"verified\":true\x7d"))))) := by
  refine ⟨?_, ?_, ?_⟩ <;>
    simp [decideTeamStatus, hfind, makeCheckInToken, String.append_assoc]

/-- Witness for check_in_token_pure at the sample store. -/
theorem check_in_token_pure_witness :
    getTeamById sampleStore "t1" = some sampleTeam
      ∧ ((decideTeamStatus sampleStore "t1" .VERIFIED (some "w") "a@x" 1 "u" true).qrCalls
            = [makeCheckInToken "t1" sampleTeam.teamName sampleTeam.category]
        ∧ (decideTeamStatus sampleStore "t1" .VERIFIED (some "w") "a@x" 1 "u" true).qrCalls
            = (decideTeamStatus sampleStore "t1" .VERIFIED none "b@x" 2 "v" false).qrCalls
        ∧ makeCheckInToken "t1" sampleTeam.teamName sampleTeam.category
            = "\x7b\"teamId\":" ++ (jsonStr "t1" ++ (",\"teamName\":" ++ (jsonStr sampleTeam.teamName
                ++ (",\"category\":" ++ (jsonStr sampleTeam.category.text ++ ",\"verified\":true\x7d")))))) :=
  ⟨rfl, check_in_token_pure _ _ _ _ _ _ _ _ _ _ _ _ _ rfl⟩

/-- C9: apiRequest retries after a 403 at most once. The entry call makes at
most two request attempts; a call with retryOn403 = false (the replay) makes
exactly one attempt whatever the response; and when the first response is
403 on a mutating request and the token refresh succeeds, the call equals a
single non-retrying replay carrying the refreshed token. -/
theorem apiRequest_retries_once (respond : Nat → Option String → Nat)
    (csrfRefresh : Option String) (isGet : Bool) (token : Option String) :
    (apiRequest respond csrfRefresh isGet token).attempts ≤ 2
      ∧ (∀ tok k, (apiRequestRun respond csrfRefresh isGet false tok k).attempts = k + 1)
      ∧ (∀ nt, respond 0 token = 403 → isGet = false → csrfRefresh = some nt →
          apiRequest respond csrfRefresh isGet token
              = apiRequestRun respond csrfRefresh isGet false (some nt) 1
            ∧ (apiRequest respond csrfRefresh isGet token).attempts = 2
            ∧ (apiRequest respond csrfRefresh isGet token).token = some nt) := by
  have hfalse : ∀ (cr : Option String) (g : Bool) (tok : Option String) (k : Nat),
      apiRequestRun respond cr g false tok k
        = { finalStatus := respond k tok, attempts := k + 1, token := tok } := by
    intro cr g tok k
    unfold apiRequestRun
    simp
  refine ⟨?_, fun tok k => by rw [hfalse], ?_⟩
  · show (apiRequestRun respond csrfRefresh isGet true token 0).attempts ≤ 2
    unfold apiRequestRun
    dsimp only
    split
    · cases csrfRefresh with
      | some nt => simp [hfalse]
      | none => simp
    · simp
  · intro nt h403 hget hcs
    subst hget
    subst hcs
    have hrun : apiRequest respond (some nt) false token
        = apiRequestRun respond (some nt) false false (some nt) 1 := by
      unfold apiRequest apiRequestRun
      simp [h403, hfalse]
    exact ⟨hrun, by rw [hrun, hfalse], by rw [hrun, hfalse]⟩

/-- A response schedule answering 403 on the first attempt and 200 after. -/
def respond403Once : Nat → Option String → Nat :=
  fun k _ => if k = 0 then 403 else 200

/-- Witness for apiRequest_retries_once: first attempt 403, refresh ok. -/
theorem apiRequest_retries_once_witness :
    (apiRequest respond403Once (some "t2") false (some "t1")).attempts ≤ 2
      ∧ (apiRequest respond403Once (some "t2") false (some "t1")).attempts = 2
      ∧ (apiRequest respond403Once (some "t2") false (some "t1")).token = some "t2" :=
  ⟨(apiRequest_retries_once respond403Once (some "t2") false (some "t1")).1,
   ((apiRequest_retries_once respond403Once (some "t2") false (some "t1")).2.2
      "t2" (by decide) rfl rfl).2.1,
   ((apiRequest_retries_once respond403Once (some "t2") false (some "t1")).2.2
      "t2" (by decide) rfl rfl).2.2⟩

/-- Looking a team up is unaffected by an audit-log append. -/
theorem getTeamById_createAuditLog (st : Store) (id tid a p : String)
    (dts : Option String) (now : Nat) :
    getTeamById (createAuditLog st tid a p dts now) id = getTeamById st id := rfl

/-- C2: verifying a PENDING team and reading it back yields status VERIFIED,
verifiedAt = now, verifiedBy the acting admin, the given note and the stored
QR reference, and appends exactly one TEAM_VERIFIED audit entry. -/
theorem verify_pending_team_row (st : Store) (id : String) (team : Team) (n : String)
    (adminEmail : String) (now : Nat) (qrUrl : String)
    (hfind : getTeamById st id = some team)
    (hpend : team.status = Status.PENDING)
    (hadmin : adminEmail ≠ "") :
    (getTeamById (decideTeamStatus st id .VERIFIED (some n) adminEmail now qrUrl true).store id).map
        (fun t => (t.status, t.verifiedAt, t.verifiedBy, t.verificationNote, t.qrCodeUrl))
      = some (.VERIFIED, some now, some adminEmail, some n, some qrUrl)
      ∧ (decideTeamStatus st id .VERIFIED (some n) adminEmail now qrUrl true).store.auditLogs
          = st.auditLogs ++ [⟨id, "TEAM_VERIFIED", adminEmail, some n, now⟩]
      ∧ (decideTeamStatus st id .VERIFIED (some n) adminEmail now qrUrl true).result = .ok := by
  have hstore : (decideTeamStatus st id .VERIFIED (some n) adminEmail now qrUrl true).store
      = updateTeamQrCode (createAuditLog (updateTeamStatus st id .VERIFIED (some n) (some adminEmail) now)
          id "TEAM_VERIFIED" adminEmail (some n) now) id qrUrl := by
    unfold decideTeamStatus
    rw [hfind]
  refine ⟨?_, ?_, ?_⟩
  · rw [hstore, getTeamById_updateTeamQrCode, getTeamById_createAuditLog,
      getTeamById_updateTeamStatus, hfind]
    simp [applyStatusUpdate, Decision.toStatus, hadmin]
  · rw [hstore]
    rfl
  · unfold decideTeamStatus
    rw [hfind]
    rfl

/-- Witness for verify_pending_team_row at the sample store. -/
theorem verify_pending_team_row_witness :
    getTeamById sampleStore "t1" = some sampleTeam
      ∧ sampleTeam.status = Status.PENDING
      ∧ "admin@x" ≠ ""
      ∧ ((getTeamById (decideTeamStatus sampleStore "t1" .VERIFIED (some "Welcome") "admin@x" 7 "http://qr" true).store "t1").map
            (fun t => (t.status, t.verifiedAt, t.verifiedBy, t.verificationNote, t.qrCodeUrl))
          = some (.VERIFIED, some 7, some "admin@x", some "Welcome", some "http://qr")
        ∧ (decideTeamStatus sampleStore "t1" .VERIFIED (some "Welcome") "admin@x" 7 "http://qr" true).store.auditLogs
            = sampleStore.auditLogs ++ [⟨"t1", "TEAM_VERIFIED", "admin@x", some "Welcome", 7⟩]
        ∧ (decideTeamStatus sampleStore "t1" .VERIFIED (some "Welcome") "admin@x" 7 "http://qr" true).result = .ok) :=
  ⟨rfl, rfl, by decide, verify_pending_team_row _ _ _ _ _ _ _ rfl rfl (by decide)⟩

/-- C5: verifying a team dispatches exactly one email whose recipient list
is exactly the member emails (n members give n recipients), with the QR
image inlined in the body and a single calendar attachment whose file name
has the .ics suffix. -/
theorem verify_email_recipients (st : Store) (id : String) (team : Team) (n : Nat)
    (note : Option String) (adminEmail : String) (now : Nat) (qrUrl : String)
    (emailOk : Bool)
    (hfind : getTeamById st id = some team)
    (hn : (getMembersByTeamId st id).length = n)
    (h2 : 2 ≤ n) (h4 : n ≤ 4) :
    ∃ msg, (decideTeamStatus st id .VERIFIED note adminEmail now qrUrl emailOk).emails = [msg]
      ∧ msg.toAddrs = (getMembersByTeamId st id).map (·.email)
      ∧ msg.toAddrs.length = n
      ∧ msg.attachments.map (·.name) = ["innovate-x-2025.ics"]
      ∧ (∀ a ∈ msg.attachments, ∃ base, a.name = base ++ ".ics")
      ∧ ∃ pre post, msg.htmlContent = pre ++ (qrImgTag qrUrl ++ post) := by
  refine ⟨{ toAddrs := (getMembersByTeamId st id).map (·.email)
            subject := "✅ Team Verified - Innovate-X 2025"
            htmlContent := acceptanceHtml team.teamName qrUrl note
            attachments := [⟨"innovate-x-2025.ics", generateICS team.teamName team.projectTitle⟩] },
      ?_, rfl, ?_, rfl, ?_, ?_⟩
  · unfold decideTeamStatus
    rw [hfind]
    rfl
  · rw [List.length_map]
    exact hn
  · intro a ha
    rw [List.mem_singleton] at ha
    subst ha
    refine ⟨"innovate-x-2025", ?_⟩
    show ("innovate-x-2025.ics" : String) = "innovate-x-2025" ++ ".ics"
    decide
  · exact ⟨acceptanceHtmlPre team.teamName, acceptanceHtmlPost note, rfl⟩

/-- Witness for verify_email_recipients: the sample team has 2 members. -/
theorem verify_email_recipients_witness :
    getTeamById sampleStore "t1" = some sampleTeam
      ∧ (getMembersByTeamId sampleStore "t1").length = 2
      ∧ 2 ≤ 2 ∧ 2 ≤ 4
      ∧ (∃ msg, (decideTeamStatus sampleStore "t1" .VERIFIED none "a@x" 1 "u" true).emails = [msg]
          ∧ msg.toAddrs = (getMembersByTeamId sampleStore "t1").map (·.email)
          ∧ msg.toAddrs.length = 2
          ∧ msg.attachments.map (·.name) = ["innovate-x-2025.ics"]
          ∧ (∀ a ∈ msg.attachments, ∃ base, a.name = base ++ ".ics")
          ∧ ∃ pre post, msg.htmlContent = pre ++ (qrImgTag "u" ++ post)) :=
  ⟨rfl, rfl, by decide, by decide,
    verify_email_recipients _ _ _ _ _ _ _ _ _ rfl rfl (by decide) (by decide)⟩

/-- C6: rejecting a team dispatches exactly one email addressed to the
contact email alone (a single-element recipient list), whose body contains
the rejection note. -/
theorem reject_email_contact_only (st : Store) (id : String) (team : Team) (n : String)
    (adminEmail : String) (now : Nat) (qrUrl : String) (emailOk : Bool)
    (hfind : getTeamById st id = some team) (hne : n ≠ "") :
    (decideTeamStatus st id .REJECTED (some n) adminEmail now qrUrl emailOk).emails
        = [{ toAddrs := [team.contactEmail]
             subject := "Innovate-X 2025 Registration Update"
             htmlContent := rejectionHtml team.teamName (some n)
             attachments := [] }]
      ∧ [team.contactEmail].length = 1
      ∧ ∃ pre post, rejectionHtml team.teamName (some n) = pre ++ (n ++ post) := by
  refine ⟨?_, rfl, ?_⟩
  · unfold decideTeamStatus
    rw [hfind]
  · have hblock : noteBlockReject (some n) = "<p><strong>Reason:</strong> " ++ n ++ "</p>" := by
      simp [noteBlockReject, hne]
    refine ⟨rejectionHtmlPre team.teamName ++ "<p><strong>Reason:</strong> ",
      "</p>" ++ rejectionHtmlPost, ?_⟩
    unfold rejectionHtml
    rw [hblock]
    simp [String.append_assoc]

/-- Witness for reject_email_contact_only at the sample store. -/
theorem reject_email_contact_only_witness :
    getTeamById sampleStore "t1" = some sampleTeam
      ∧ ("Incomplete payment" : String) ≠ ""
      ∧ ((decideTeamStatus sampleStore "t1" .REJECTED (some "Incomplete payment") "a@x" 1 "u" true).emails
            = [{ toAddrs := [sampleTeam.contactEmail]
                 subject := "Innovate-X 2025 Registration Update"
                 htmlContent := rejectionHtml sampleTeam.teamName (some "Incomplete payment")
                 attachments := [] }]
        ∧ [sampleTeam.contactEmail].length = 1
        ∧ ∃ pre post, rejectionHtml sampleTeam.teamName (some "Incomplete payment")
            = pre ++ ("Incomplete payment" ++ post)) :=
  ⟨rfl, by decide, reject_email_contact_only _ _ _ _ _ _ _ _ rfl (by decide)⟩

/-- C8: when the email dispatch fails after the writes, the handler reports
an error but nothing is rolled back: the store equals the store of a
successful run, the row keeps the decided status (verifiedAt = now on
VERIFY), and the appended audit entry is preserved. -/
theorem email_failure_keeps_writes (st : Store) (id : String) (team : Team)
    (d : Decision) (note : Option String) (adminEmail : String) (now : Nat)
    (qrUrl : String)
    (hfind : getTeamById st id = some team) :
    (decideTeamStatus st id d note adminEmail now qrUrl false).result = .serverError
      ∧ (decideTeamStatus st id d note adminEmail now qrUrl false).store
          = (decideTeamStatus st id d note adminEmail now qrUrl true).store
      ∧ (getTeamById (decideTeamStatus st id d note adminEmail now qrUrl false).store id).map (·.status)
          = some d.toStatus
      ∧ (getTeamById (decideTeamStatus st id .VERIFIED note adminEmail now qrUrl false).store id).map (·.verifiedAt)
          = some (some now)
      ∧ (decideTeamStatus st id d note adminEmail now qrUrl false).store.auditLogs
          = st.auditLogs ++ [⟨id,
              match d with | .VERIFIED => "TEAM_VERIFIED" | .REJECTED => "TEAM_REJECTED",
              adminEmail, note, now⟩] := by
  have hsV : (decideTeamStatus st id .VERIFIED note adminEmail now qrUrl false).store
      = updateTeamQrCode (createAuditLog (updateTeamStatus st id .VERIFIED note (some adminEmail) now)
          id "TEAM_VERIFIED" adminEmail note now) id qrUrl := by
    unfold decideTeamStatus
    rw [hfind]
  have hVAt : (getTeamById (decideTeamStatus st id .VERIFIED note adminEmail now qrUrl false).store id).map (·.verifiedAt)
      = some (some now) := by
    rw [hsV, getTeamById_updateTeamQrCode, getTeamById_createAuditLog,
      getTeamById_updateTeamStatus, hfind]
    simp [applyStatusUpdate]
  cases d with
  | VERIFIED =>
    refine ⟨?_, ?_, ?_, hVAt, ?_⟩
    · unfold decideTeamStatus
      rw [hfind]
      rfl
    · unfold decideTeamStatus
      rw [hfind]
    · rw [hsV, getTeamById_updateTeamQrCode, getTeamById_createAuditLog,
        getTeamById_updateTeamStatus, hfind]
      simp [applyStatusUpdate, Decision.toStatus]
    · rw [hsV]
      rfl
  | REJECTED =>
    have hsR : (decideTeamStatus st id .REJECTED note adminEmail now qrUrl false).store
        = createAuditLog (updateTeamStatus st id .REJECTED note (some adminEmail) now)
            id "TEAM_REJECTED" adminEmail note now := by
      unfold decideTeamStatus
      rw [hfind]
    refine ⟨?_, ?_, ?_, hVAt, ?_⟩
    · unfold decideTeamStatus
      rw [hfind]
      rfl
    · unfold decideTeamStatus
      rw [hfind]
    · rw [hsR, getTeamById_createAuditLog, getTeamById_updateTeamStatus, hfind]
      simp [applyStatusUpdate, Decision.toStatus]
    · rw [hsR]
      rfl

/-- Witness for email_failure_keeps_writes: failing email on a VERIFY of the
sample team. -/
theorem email_failure_keeps_writes_witness :
    getTeamById sampleStore "t1" = some sampleTeam
      ∧ ((decideTeamStatus sampleStore "t1" .VERIFIED (some "ok") "a@x" 3 "u" false).result = .serverError
        ∧ (decideTeamStatus sampleStore "t1" .VERIFIED (some "ok") "a@x" 3 "u" false).store
            = (decideTeamStatus sampleStore "t1" .VERIFIED (some "ok") "a@x" 3 "u" true).store
        ∧ (getTeamById (decideTeamStatus sampleStore "t1" .VERIFIED (some "ok") "a@x" 3 "u" false).store "t1").map (·.status)
            = some Decision.VERIFIED.toStatus
        ∧ (getTeamById (decideTeamStatus sampleStore "t1" .VERIFIED (some "ok") "a@x" 3 "u" false).store "t1").map (·.verifiedAt)
            = some (some 3)
        ∧ (decideTeamStatus sampleStore "t1" .VERIFIED (some "ok") "a@x" 3 "u" false).store.auditLogs
            = sampleStore.auditLogs ++ [⟨"t1", "TEAM_VERIFIED", "a@x", some "ok", 3⟩]) :=
  ⟨rfl, email_failure_keeps_writes _ _ _ _ _ _ _ _ rfl⟩

/-- The sample team as it stands after having been verified once. -/
def verifiedSampleTeam : Team :=
  { sampleTeam with
    status := .VERIFIED, verificationNote := some "ok"
    qrCodeUrl := some "http://qr1", verifiedAt := some 1
    verifiedBy := some "admin@x", updatedAt := 1 }

/-- A store in which the sample team is already VERIFIED, with the audit
entry of that first verification. -/
def verifiedStore : Store :=
  ⟨[verifiedSampleTeam], [sampleMember1, sampleMember2],
    [⟨"t1", "TEAM_VERIFIED", "admin@x", some "ok", 1⟩], []⟩

/-- C1 evidence: the status handler has no PENDING guard. Deciding VERIFY on
a team that is already VERIFIED re-executes every side effect instead of
rejecting: the call returns ok, dispatches a second email, encodes a second
QR payload, appends a second TEAM_VERIFIED audit entry, and overwrites
verifiedAt and qrCodeUrl. -/
theorem double_verify_reexecutes_side_effects :
    (decideTeamStatus verifiedStore "t1" .VERIFIED (some "again") "admin@x" 2 "http://qr2" true).result
        = .ok
      ∧ (decideTeamStatus verifiedStore "t1" .VERIFIED (some "again") "admin@x" 2 "http://qr2" true).emails.length = 1
      ∧ (decideTeamStatus verifiedStore "t1" .VERIFIED (some "again") "admin@x" 2 "http://qr2" true).qrCalls.length = 1
      ∧ (decideTeamStatus verifiedStore "t1" .VERIFIED (some "again") "admin@x" 2 "http://qr2" true).store.auditLogs.length = 2
      ∧ (getTeamById (decideTeamStatus verifiedStore "t1" .VERIFIED (some "again") "admin@x" 2 "http://qr2" true).store "t1").map
            (fun t => (t.verifiedAt, t.qrCodeUrl))
          = some (some 2, some "http://qr2") := by
  decide

/-- A store whose event settings carry a venue that differs from the
hard-coded one. -/
def venueStore : Store :=
  ⟨[sampleTeam], [sampleMember1, sampleMember2], [], [("EVENT_VENUE", "Room 42")]⟩

/-- C7 counterexample: with EVENT_VENUE set to Room 42, the calendar event
attached by the VERIFY path still carries the hard-coded location; the
fields are not taken from the event settings. -/
theorem calendar_ignores_settings_cex :
    (decideTeamStatus venueStore "t1" .VERIFIED (some "w") "admin@x" 2 "u" true).emails.map
        (fun m => m.attachments.map (fun a => a.event.location))
      = [["Main Auditorium, Your College"]]
      ∧ specCalendarVenue venueStore.settings = "Room 42"
      ∧ ("Main Auditorium, Your College" : String) ≠ "Room 42" := by
  decide

/-- C7 amended: the calendar artifact on VERIFY is a single event with
status CONFIRMED whose date, time and venue are the fixed constants
November 25 2025, 09:00 to 17:00, Main Auditorium, Your College; the event
settings are never consulted, so the artifact is identical whatever the
settings rows hold, and missing settings cannot cause an error. -/
theorem calendar_constant_fields (st : Store) (id : String) (team : Team)
    (note : Option String) (adminEmail : String) (now : Nat) (qrUrl : String)
    (emailOk : Bool) (hfind : getTeamById st id = some team) :
    (decideTeamStatus st id .VERIFIED note adminEmail now qrUrl emailOk).emails.map
        (fun m => m.attachments)
      = [[⟨"innovate-x-2025.ics", generateICS team.teamName team.projectTitle⟩]]
      ∧ (generateICS team.teamName team.projectTitle).status = "CONFIRMED"
      ∧ (generateICS team.teamName team.projectTitle).location = "Main Auditorium, Your College"
      ∧ (generateICS team.teamName team.projectTitle).startYear = 2025
      ∧ (generateICS team.teamName team.projectTitle).startMonth = 11
      ∧ (generateICS team.teamName team.projectTitle).startDay = 25
      ∧ (generateICS team.teamName team.projectTitle).startHour = 9
      ∧ (generateICS team.teamName team.projectTitle).endHour = 17
      ∧ ∀ settings2 : List (String × String),
          (decideTeamStatus { st with settings := settings2 } id .VERIFIED note adminEmail now qrUrl emailOk).emails
            = (decideTeamStatus st id .VERIFIED note adminEmail now qrUrl emailOk).emails := by
  refine ⟨?_, rfl, rfl, rfl, rfl, rfl, rfl, rfl, ?_⟩
  · unfold decideTeamStatus
    rw [hfind]
    rfl
  · intro s2
    have h2 : getTeamById { st with settings := s2 } id = some team := hfind
    unfold decideTeamStatus
    rw [h2, hfind]
    rfl

/-- Witness for calendar_constant_fields at the venue store. -/
theorem calendar_constant_fields_witness :
    getTeamById venueStore "t1" = some sampleTeam
      ∧ ((decideTeamStatus venueStore "t1" .VERIFIED (some "w") "admin@x" 2 "u" true).emails.map
            (fun m => m.attachments)
          = [[⟨"innovate-x-2025.ics", generateICS sampleTeam.teamName sampleTeam.projectTitle⟩]]
        ∧ (generateICS sampleTeam.teamName sampleTeam.projectTitle).status = "CONFIRMED"
        ∧ (generateICS sampleTeam.teamName sampleTeam.projectTitle).location = "Main Auditorium, Your College"
        ∧ (generateICS sampleTeam.teamName sampleTeam.projectTitle).startYear = 2025
        ∧ (generateICS sampleTeam.teamName sampleTeam.projectTitle).startMonth = 11
        ∧ (generateICS sampleTeam.teamName sampleTeam.projectTitle).startDay = 25
        ∧ (generateICS sampleTeam.teamName sampleTeam.projectTitle).startHour = 9
        ∧ (generateICS sampleTeam.teamName sampleTeam.projectTitle).endHour = 17
        ∧ ∀ settings2 : List (String × String),
            (decideTeamStatus { venueStore with settings := settings2 } "t1" .VERIFIED (some "w") "admin@x" 2 "u" true).emails
              = (decideTeamStatus venueStore "t1" .VERIFIED (some "w") "admin@x" 2 "u" true).emails) :=
  ⟨rfl, calendar_constant_fields _ _ _ _ _ _ _ _ rfl⟩

end InnovateX
